import Mathlib

/-!
# Verification of the mesh-mapper MQTT ingestion worker

Shallow embedding of `src/mqtt_worker/mqtt_worker.py`: the Python decoded
dictionaries are modelled by `PyVal`/`PyDict`, protobuf messages by Lean
structures whose fields mirror the wire schema (presence-tracked fields are
`Option`s, proto3 scalar defaults are `0`/`""`/`false`), and the external
parsers (protobuf `ParseFromString`, `json.loads`, UTF-8 lossy decode) by
`Except`-valued parse outcomes supplied as input.  Floating-point arithmetic
is modelled over `ℚ`.
-/

set_option maxHeartbeats 1000000

namespace MeshMapper

mutual
/-- A Python value as it appears in the worker's decoded dictionaries:
`None`, a bool, a number (ints and floats modelled over `ℚ`), a string,
or a nested dict. -/
inductive PyVal : Type where
  | none : PyVal
  | bool : Bool → PyVal
  | num : ℚ → PyVal
  | str : String → PyVal
  | dict : PyDict → PyVal

/-- A Python dict with string keys, in insertion order. -/
inductive PyDict : Type where
  | nil : PyDict
  | cons : String → PyVal → PyDict → PyDict
end

mutual
def PyVal.beq : PyVal → PyVal → Bool
  | .none, .none => true
  | .bool a, .bool b => a == b
  | .num a, .num b => a == b
  | .str a, .str b => a == b
  | .dict a, .dict b => PyDict.beq a b
  | _, _ => false

def PyDict.beq : PyDict → PyDict → Bool
  | .nil, .nil => true
  | .cons k v r, .cons k' v' r' => k == k' && PyVal.beq v v' && PyDict.beq r r'
  | _, _ => false
end

mutual
def PyVal.beq_iff : ∀ a b : PyVal, PyVal.beq a b = true ↔ a = b
  | .none, .none => by simp [PyVal.beq]
  | .none, .bool _ | .none, .num _ | .none, .str _ | .none, .dict _ => by simp [PyVal.beq]
  | .bool _, .none | .bool _, .num _ | .bool _, .str _ | .bool _, .dict _ => by simp [PyVal.beq]
  | .num _, .none | .num _, .bool _ | .num _, .str _ | .num _, .dict _ => by simp [PyVal.beq]
  | .str _, .none | .str _, .bool _ | .str _, .num _ | .str _, .dict _ => by simp [PyVal.beq]
  | .dict _, .none | .dict _, .bool _ | .dict _, .num _ | .dict _, .str _ => by simp [PyVal.beq]
  | .bool a, .bool b => by simp [PyVal.beq]
  | .num a, .num b => by simp [PyVal.beq]
  | .str a, .str b => by simp [PyVal.beq]
  | .dict a, .dict b => by simp [PyVal.beq, PyDict.beq_iff a b]

def PyDict.beq_iff : ∀ a b : PyDict, PyDict.beq a b = true ↔ a = b
  | .nil, .nil => by simp [PyDict.beq]
  | .nil, .cons _ _ _ => by simp [PyDict.beq]
  | .cons _ _ _, .nil => by simp [PyDict.beq]
  | .cons k v r, .cons k' v' r' => by
    simp [PyDict.beq, PyVal.beq_iff v v', PyDict.beq_iff r r', and_assoc]
end

instance : DecidableEq PyVal := fun a b =>
  decidable_of_iff (PyVal.beq a b = true) (PyVal.beq_iff a b)

instance : DecidableEq PyDict := fun a b =>
  decidable_of_iff (PyDict.beq a b = true) (PyDict.beq_iff a b)

/-- `d.get(key)` on a Python dict: the stored value, `None` when absent. -/
def PyDict.dget : PyDict → String → PyVal
  | .nil, _ => .none
  | .cons k v rest, key => if k = key then v else rest.dget key

/-- `key in d` on a Python dict. -/
def PyDict.hasKey : PyDict → String → Bool
  | .nil, _ => false
  | .cons k _ rest, key => k == key || rest.hasKey key

/-- `d.get(key, default)` on a Python dict. -/
def PyDict.dgetD (d : PyDict) (key : String) (dflt : PyVal) : PyVal :=
  if d.hasKey key then d.dget key else dflt

/-- Concatenation of two dicts (used to model adding keys to a dict literal;
all keys written by the worker are distinct). -/
def PyDict.append : PyDict → PyDict → PyDict
  | .nil, d => d
  | .cons k v rest, d => .cons k v (rest.append d)

/-- Build a dict from a key/value list, in insertion order. -/
def PyDict.ofList : List (String × PyVal) → PyDict
  | [] => .nil
  | (k, v) :: rest => .cons k v (ofList rest)

/-- Python truthiness of a value (`if x:`). -/
def PyVal.truthy : PyVal → Bool
  | .none => false
  | .bool b => b
  | .num q => q != 0
  | .str s => s != ""
  | .dict .nil => false
  | .dict (.cons _ _ _) => true

/-!
## `format_node_id`

    def format_node_id(node_id_int):
        if not node_id_int:
            return None
        return f"!{node_id_int:08x}"

Python's `{n:08x}` prints the minimal lowercase-hex digit string of `n`,
left-padded with `'0'` to width at least 8.  We realise the hex digit
string through `Nat.digits 16` (little-endian) reversed and mapped through
`Nat.digitChar` (which prints `0..15` as `0-9a-f`).
-/

/-- The minimal lowercase hexadecimal digit-character list of `n`
(most significant first); empty for `n = 0`. -/
def hexDigitsOf (n : Nat) : List Char :=
  ((Nat.digits 16 n).reverse).map Nat.digitChar

/-- `format_node_id` from the worker: `None` on a falsy (zero) node integer,
otherwise `'!'` followed by the hex form of `n` zero-padded to width 8. -/
def format_node_id (node_id_int : Nat) : Option String :=
  if node_id_int = 0 then Option.none
  else
    let ds := hexDigitsOf node_id_int
    some (String.mk ('!' :: (List.replicate (8 - ds.length) '0' ++ ds)))

/-- The sixteen lowercase hexadecimal digit characters. -/
def lowerHexChars : List Char := "0123456789abcdef".toList

/-!
## Protobuf message model

Mirrors the Meshtastic wire schema consumed read-only by the worker.
proto3 scalar fields default to `0`/`""`/`false`; fields the code accesses
through `HasField` (submessages, `rx_snr`, `rx_rssi`) are `Option`s.  The
results of `ParseFromString` on the opaque nested payload bytes are part of
the input (`Except`-valued parse outcomes), since the wire format itself is
external to this repository.
-/

/-- Portnum constant `portnums_pb2.TEXT_MESSAGE_APP`. -/
def TEXT_MESSAGE_APP : Nat := 1

/-- Portnum constant `portnums_pb2.POSITION_APP`. -/
def POSITION_APP : Nat := 3

/-- Portnum constant `portnums_pb2.TELEMETRY_APP`. -/
def TELEMETRY_APP : Nat := 67

/-- `mesh_pb2.Position`: fixed-point coordinates scaled by 1e7. -/
structure PositionMsg where
  latitude_i : Int
  longitude_i : Int
  altitude : Int
  time : Nat

/-- `telemetry_pb2.DeviceMetrics`. -/
structure DeviceMetricsMsg where
  battery_level : Nat
  voltage : ℚ
  channel_utilization : ℚ
  air_util_tx : ℚ

/-- `telemetry_pb2.Telemetry` with its optional `device_metrics` submessage. -/
structure TelemetryMsg where
  time : Nat
  device_metrics : Option DeviceMetricsMsg

/-- `packet.decoded` (`mesh_pb2.Data`): the port number plus the outcomes
of parsing its payload bytes as each nested message kind the worker tries
(`Position`, `Telemetry`, UTF-8 text with `errors='ignore'`). -/
structure DataMsg where
  portnum : Nat
  posParse : Except String PositionMsg
  telParse : Except String TelemetryMsg
  textParse : Except String String

/-- `mesh_pb2.MeshPacket` (fields the worker reads). The Python attribute
`packet.from` is accessed as `from_node` (protobuf renames the keyword). -/
structure MeshPacket where
  from_node : Nat
  to_node : Nat
  id : Nat
  channel : Nat
  rx_time : Nat
  rx_snr : Option ℚ
  rx_rssi : Option Int
  hop_limit : Nat
  hop_start : Nat
  want_ack : Bool
  decoded : Option DataMsg

/-- The default (all-fields-unset) `MeshPacket`, returned when the envelope's
`packet` submessage is not populated. -/
def defaultMeshPacket : MeshPacket :=
  ⟨0, 0, 0, 0, 0, Option.none, Option.none, 0, 0, false, Option.none⟩

/-- A populated envelope field value, as returned by `ListFields`:
either the packet submessage or a string field. -/
inductive FieldVal where
  | msg : MeshPacket → FieldVal
  | str : String → FieldVal

/-- `mqtt_pb2.ServiceEnvelope`: `packet = 1`, `channel_id = 2`,
`gateway_id = 3` (presence of the submessage tracked by `Option`,
string fields populated iff non-empty). -/
structure ServiceEnvelope where
  packet : Option MeshPacket
  channel_id : String
  gateway_id : String

/-- `service_envelope.packet`: the submessage, or the default message
when unset (proto3 semantics). -/
def ServiceEnvelope.getPacket (env : ServiceEnvelope) : MeshPacket :=
  env.packet.getD defaultMeshPacket

/-- `service_envelope.ListFields()`: the populated fields, in declaration
(field-number) order, as (name, value) pairs. -/
def ServiceEnvelope.listFields (env : ServiceEnvelope) : List (String × FieldVal) :=
  (match env.packet with
    | some p => [("packet", FieldVal.msg p)]
    | Option.none => [])
  ++ (if env.channel_id ≠ "" then [("channel_id", FieldVal.str env.channel_id)] else [])
  ++ (if env.gateway_id ≠ "" then [("gateway_id", FieldVal.str env.gateway_id)] else [])

/-- `"!".isPrefixOf`-style check: Python `s.startswith(p)`. -/
def pyStartsWith (s p : String) : Bool :=
  s.toList.take p.toList.length == p.toList

/-- Python `needle in hay` on strings (substring containment). -/
def strContains (hay needle : String) : Bool :=
  (List.range (hay.toList.length + 1)).any
    (fun i => (hay.toList.drop i).take needle.toList.length == needle.toList)

/-!
## `decode_protobuf_packet`

Input is the outcome of `ServiceEnvelope.ParseFromString(payload)`; the
whole body is wrapped in `try/except` returning `{"error": ...}`.
-/

/-- The node-identity resolution performed at the top of
`decode_protobuf_packet` (lines 39–57): non-zero `from` formatted
canonically, else the third populated envelope field when it is a string
starting with `'!'` (truthy, i.e. non-empty). -/
def resolve_node_id (env : ServiceEnvelope) : Option String :=
  let packet := env.getPacket
  if packet.from_node ≠ 0 then format_node_id packet.from_node
  else
    let fields := env.listFields
    if 3 ≤ fields.length then
      match fields[2]? with
      | some (_, FieldVal.str g) =>
          if g ≠ "" && pyStartsWith g "!" then some g else Option.none
      | _ => Option.none
    else Option.none

/-- The base decoded dict (lines 63–74). -/
def decodedBase (packet : MeshPacket) (nid : String) : PyDict :=
  PyDict.ofList [
    ("id", if packet.id ≠ 0 then .num packet.id else .none),
    ("from", .str nid),
    ("to", if packet.to_node ≠ 0 then
             match format_node_id packet.to_node with
             | some s => .str s
             | Option.none => .none
           else .none),
    ("channel", .num packet.channel),
    ("rx_time", if packet.rx_time ≠ 0 then .num packet.rx_time else .none),
    ("rx_snr", match packet.rx_snr with | some q => .num q | Option.none => .none),
    ("rx_rssi", match packet.rx_rssi with | some i => .num i | Option.none => .none),
    ("hop_limit", if packet.hop_limit ≠ 0 then .num packet.hop_limit else .none),
    ("hop_start", if packet.hop_start ≠ 0 then .num packet.hop_start else .none),
    ("want_ack", .bool packet.want_ack)]

/-- The portnum-dispatched payload fields (lines 77–121): each nested parse
is guarded by its own `try/except`, a failure omitting just that field. -/
def decodedPayloadFields (d : DataMsg) : PyDict :=
  if d.portnum = POSITION_APP then
    match d.posParse with
    | .error _ => .nil
    | .ok pos =>
      let lat : Option ℚ :=
        if pos.latitude_i ≠ 0 then some ((pos.latitude_i : ℚ) / 10000000) else Option.none
      let lon : Option ℚ :=
        if pos.longitude_i ≠ 0 then some ((pos.longitude_i : ℚ) / 10000000) else Option.none
      match lat, lon with
      | some la, some lo =>
        if la != 0 && lo != 0 then
          PyDict.ofList [("position", .dict (PyDict.ofList [
            ("latitude", .num la),
            ("longitude", .num lo),
            ("altitude", if pos.altitude ≠ 0 then .num pos.altitude else .none),
            ("time", if pos.time ≠ 0 then .num pos.time else .none)]))]
        else .nil
      | _, _ => .nil
  else if d.portnum = TELEMETRY_APP then
    match d.telParse with
    | .error _ => .nil
    | .ok t =>
      let tdict := PyDict.ofList [("time", if t.time ≠ 0 then .num t.time else .none)]
      let tdict := match t.device_metrics with
        | some m => tdict.append (PyDict.ofList [("device_metrics", .dict (PyDict.ofList [
            ("battery_level", .num m.battery_level),
            ("voltage", .num m.voltage),
            ("channel_utilization", .num m.channel_utilization),
            ("air_util_tx", .num m.air_util_tx)]))])
        | Option.none => tdict
      PyDict.ofList [("telemetry", .dict tdict)]
  else if d.portnum = TEXT_MESSAGE_APP then
    match d.textParse with
    | .error _ => .nil
    | .ok s => PyDict.ofList [("text", .str s)]
  else .nil

/-- `decode_protobuf_packet(payload)` (lines 30–125), over the outcome of
the outer `ParseFromString`. -/
def decode_protobuf_packet (input : Except String ServiceEnvelope) : PyDict :=
  match input with
  | .error e => PyDict.ofList [("error", .str ("Error parsing message: " ++ e))]
  | .ok env =>
    let packet := env.getPacket
    match resolve_node_id env with
    | Option.none => PyDict.ofList [("error", .str "from_node")]
    | some nid =>
      let base := decodedBase packet nid
      match packet.decoded with
      | Option.none => base
      | some d =>
        (base.append (PyDict.ofList [("port_num", .num d.portnum)])).append
          (decodedPayloadFields d)

/-!
## `decode_json_packet`

Input is the outcome of `json.loads(payload)` as a dict (an `.error` also
covers a payload whose top-level JSON value is not an object, on which the
attribute accesses raise and are caught by the same `except`).
-/

/-- `decode_json_packet(payload)` (lines 127–156). -/
def decode_json_packet (input : Except String PyDict) : PyDict :=
  match input with
  | .error e => PyDict.ofList [("error", .str e)]
  | .ok data =>
    let decoded := PyDict.ofList [
      ("id", data.dget "id"),
      ("from", data.dget "from"),
      ("to", data.dget "to"),
      ("channel", data.dget "channel"),
      ("type", data.dget "type"),
      ("sender", data.dget "sender"),
      ("timestamp", data.dget "timestamp"),
      ("rssi", data.dget "rssi"),
      ("snr", data.dget "snr"),
      ("hop_limit", data.dget "hop_limit"),
      ("hop_start", data.dget "hop_start"),
      ("hops_away", data.dget "hops_away")]
    if data.hasKey "latitude" && data.hasKey "longitude" then
      decoded.append (PyDict.ofList [("position", .dict (PyDict.ofList [
        ("latitude", data.dget "latitude"),
        ("longitude", data.dget "longitude"),
        ("altitude", data.dget "altitude")]))])
    else decoded

/-- Spec-side restatement of the node-identity resolution algorithm,
written from the spec's words: (a) a non-zero inner `from` field is
formatted canonically; (b) otherwise the third populated envelope field
(in declaration order) is taken when its value is a string beginning with
`'!'`; (c) otherwise no identity. -/
def node_id_spec (env : ServiceEnvelope) : Option String :=
  if env.getPacket.from_node ≠ 0 then
    format_node_id env.getPacket.from_node
  else
    match (env.listFields)[2]? with
    | some (_, FieldVal.str s) =>
        if pyStartsWith s "!" then some s else Option.none
    | _ => Option.none

/-!
## `on_message` (lines 233–297)

One dispatch is modelled as a pure function from the message (with its parse
outcomes) and the process environment to the set of effects it performs:
the raw-log line (written unconditionally, first), the decoded-log line,
the hex-events-log line, and the background relational-write task created
via `asyncio.create_task`.  The `try` at lines 264–296 wraps the H3
conversion, the event construction, the hex-events append AND the task
creation; a raised H3 error or a failing hex-events append is caught there,
skipping everything after the raising point.
-/

/-- `H3_RESOLUTION` (default of the env lookup). -/
def H3_RESOLUTION : Nat := 8

/-- The structured event dict built at lines 268–282. -/
structure Event where
  timestamp : Nat
  timestamp_iso : String
  node_id : PyVal
  hex_id : String
  latitude : PyVal
  longitude : PyVal
  altitude : PyVal
  packet_type : PyVal
  rssi : PyVal
  snr : PyVal
  hop_limit : PyVal
  topic : String
  raw_payload : String
deriving DecidableEq

/-- One incoming bus message: its topic, hex-encoded payload, and the
outcomes of the two parsers `on_message` may apply to the payload bytes
(only the one selected by the topic is consulted). -/
structure InMsg where
  topic : String
  payload_hex : String
  binParse : Except String ServiceEnvelope
  jsonParse : Except String PyDict

/-- Process environment of one dispatch: `h3.geo_to_h3` (an external pure
function that may raise on bad coordinates), whether the hex-events append
succeeds, and whether `db_pool` is set (not `None`). -/
structure WorkerEnv where
  h3geo : PyVal → PyVal → Nat → Except String String
  hexWriteOk : Bool
  dbPool : Bool

/-- The effects of one `on_message` dispatch. -/
structure DispatchOut where
  rawLine : String × String
  decodedLine : Option PyDict
  hexEventLine : Option Event
  dbDispatched : Option Event

/-- `on_message(client, userdata, msg)`, lines 233–297. -/
def on_message (w : WorkerEnv) (timestamp_unix : Nat) (ts : String)
    (msg : InMsg) : DispatchOut :=
  let raw := (msg.topic, msg.payload_hex)
  let decodedOpt : Option PyDict :=
    if strContains msg.topic "/json/" then some (decode_json_packet msg.jsonParse)
    else if strContains msg.topic "/e/" || strContains msg.topic "/c/" then
      some (decode_protobuf_packet msg.binParse)
    else Option.none
  match decodedOpt with
  | Option.none => ⟨raw, Option.none, Option.none, Option.none⟩
  | some dec =>
    -- `if decoded:` — an empty dict is falsy
    if dec = PyDict.nil then ⟨raw, Option.none, Option.none, Option.none⟩
    else
      let dl := some dec
      match dec.dget "position" with
      | PyVal.dict p =>
        if (p.dget "latitude").truthy && (p.dget "longitude").truthy then
          let lat := p.dget "latitude"
          let lon := p.dget "longitude"
          match w.h3geo lat lon H3_RESOLUTION with
          | .error _ => ⟨raw, dl, Option.none, Option.none⟩
          | .ok hexId =>
            let ev : Event := {
              timestamp := timestamp_unix
              timestamp_iso := ts
              node_id := dec.dget "from"
              hex_id := hexId
              latitude := lat
              longitude := lon
              altitude := p.dget "altitude"
              packet_type := dec.dgetD "port_num" (.str "unknown")
              rssi := dec.dget "rx_rssi"
              snr := dec.dget "rx_snr"
              hop_limit := dec.dget "hop_limit"
              topic := msg.topic
              raw_payload := msg.payload_hex }
            if w.hexWriteOk then
              ⟨raw, dl, some ev, if w.dbPool then some ev else Option.none⟩
            else
              ⟨raw, dl, Option.none, Option.none⟩
        else ⟨raw, dl, Option.none, Option.none⟩
      | _ => ⟨raw, dl, Option.none, Option.none⟩

/-!
## `save_event_to_db` (lines 179–227) and the relational store

The `devices` table is keyed by its unique key `node_id` and therefore
modelled as a partial map; the `events` table as its row list.  The device
upsert mirrors the `INSERT ... ON CONFLICT (node_id) DO UPDATE` statement:
the insert values set `first_seen` to the event timestamp and
`packet_count` to 1, the conflict update overwrites only the `last_*`
columns and increments `packet_count`, leaving `first_seen` untouched.
-/

/-- One row of the `devices` table. -/
structure DeviceRow where
  node_id : PyVal
  last_seen : Nat
  last_hex_id : String
  last_latitude : PyVal
  last_longitude : PyVal
  last_altitude : PyVal
  first_seen : Nat
  packet_count : Nat
deriving DecidableEq

/-- The inserted row (VALUES list of the upsert, lines 206–209). -/
def newDeviceRow (ev : Event) : DeviceRow :=
  { node_id := ev.node_id
    last_seen := ev.timestamp
    last_hex_id := ev.hex_id
    last_latitude := ev.latitude
    last_longitude := ev.longitude
    last_altitude := ev.altitude
    first_seen := ev.timestamp
    packet_count := 1 }

/-- The `DO UPDATE SET` clause (lines 210–216): overwrite the `last_*`
columns, increment `packet_count`; `first_seen` is not in the SET list. -/
def updateDeviceRow (r : DeviceRow) (ev : Event) : DeviceRow :=
  { r with
    last_seen := ev.timestamp
    last_hex_id := ev.hex_id
    last_latitude := ev.latitude
    last_longitude := ev.longitude
    last_altitude := ev.altitude
    packet_count := r.packet_count + 1 }

/-- The `devices` table: at most one row per `node_id` (unique key). -/
def DevTable : Type := PyVal → Option DeviceRow

/-- The empty `devices` table. -/
def emptyDevices : DevTable := fun _ => Option.none

/-- The device-aggregate upsert (lines 205–224). -/
def upsert_device (devices : DevTable) (ev : Event) : DevTable :=
  fun k =>
    if k = ev.node_id then
      match devices ev.node_id with
      | Option.none => some (newDeviceRow ev)
      | some r => some (updateDeviceRow r ev)
    else devices k

/-- The relational store state: `events` rows and the `devices` table. -/
structure DbState where
  events : List Event
  devices : DevTable

/-- Which statement of the `save_event_to_db` body raises, if any (the two
`conn.execute` calls run on one connection without a transaction, so a
failure of the second leaves the first committed). -/
inductive StoreOutcome where
  | ok : StoreOutcome
  | failAcquireOrInsert : StoreOutcome
  | failUpsert : StoreOutcome

/-- `save_event_to_db(event)`: the whole body sits in `try/except` printing
`Database save error` — the function always returns, never raises, and does
not re-attempt the failed write.  Returns the new store state and whether
the error was logged. -/
def save_event_to_db (st : DbState) (ev : Event) (outcome : StoreOutcome) :
    DbState × Bool :=
  match outcome with
  | .ok => (⟨st.events ++ [ev], upsert_device st.devices ev⟩, false)
  | .failAcquireOrInsert => (st, true)
  | .failUpsert => (⟨st.events ++ [ev], st.devices⟩, true)

/-!
## `init_db` (lines 158–177)
-/

/-- `max_retries` in `init_db`. -/
def max_retries : Nat := 5

/-- `retry_delay` (seconds) in `init_db`. -/
def retry_delay : Nat := 3

/-- Result of `init_db`: whether `db_pool` was set, how many connection
attempts were made, and the sleeps (in seconds) performed between them. -/
structure InitDbResult where
  db_pool : Bool
  attempts : Nat
  sleeps : List Nat
deriving DecidableEq

/-- The `for attempt in range(max_retries)` loop of `init_db`; `outcome i`
tells whether the `i`-th `create_pool` call succeeds. -/
def init_db_loop (outcome : Nat → Bool) (attempt : Nat) : InitDbResult :=
  if attempt < max_retries then
    if outcome attempt then ⟨true, attempt + 1, []⟩
    else if attempt < max_retries - 1 then
      let r := init_db_loop outcome (attempt + 1)
      ⟨r.db_pool, r.attempts, retry_delay :: r.sleeps⟩
    else ⟨false, attempt + 1, []⟩
  else ⟨false, attempt, []⟩
termination_by max_retries - attempt
decreasing_by simp_wf; omega

/-- `init_db()`: run the retry loop from attempt 0. -/
def init_db (outcome : Nat → Bool) : InitDbResult :=
  init_db_loop outcome 0

/-!
## Concrete inputs used by witnesses
-/

/-- A worker environment in which every write succeeds and the store pool
is up; `h3.geo_to_h3` is fixed to a constant cell id. -/
def okEnv : WorkerEnv := ⟨fun _ _ _ => .ok "8841ad91dbfffff", true, true⟩

/-- A JSON-path message carrying a position and an `"rssi"` value. -/
def jsonPosMsg : InMsg :=
  { topic := "msh/US/2/json/LongFast/!abc"
    payload_hex := "7b7d"
    binParse := .error "unused"
    jsonParse := .ok (PyDict.ofList [
      ("from", .str "!abcdef01"),
      ("rssi", .num (-70)),
      ("snr", .num 6),
      ("latitude", .num 51),
      ("longitude", .num (-7))]) }

/-- Like `okEnv` but the hex-events append raises. -/
def hexFailEnv : WorkerEnv := ⟨fun _ _ _ => .ok "8841ad91dbfffff", false, true⟩

/-- A binary-path message whose envelope has no populated fields: the inner
packet defaults to `from = 0` and fewer than 3 envelope fields are
populated, so node-identity resolution fails. -/
def noIdMsg : InMsg :=
  { topic := "msh/US/2/e/LongFast/!gw"
    payload_hex := "deadbeef"
    binParse := .ok ⟨Option.none, "", ""⟩
    jsonParse := .error "unused" }

/-- The per-subscription processing of a message batch: `on_message` is
invoked once per message, in arrival order, with no decoder state shared
between calls. -/
def process_messages (w : WorkerEnv) (tsu : Nat) (ts : String)
    (msgs : List InMsg) : List DispatchOut :=
  msgs.map (on_message w tsu ts)

/-- Iterated device upsert over a sequence of persisted events, starting
from an empty `devices` table. -/
def apply_events (evs : List Event) : DevTable :=
  evs.foldl upsert_device emptyDevices

/-- The events of a sequence attributed to a given `node_id`. -/
def events_for (nid : PyVal) (evs : List Event) : List Event :=
  evs.filter (fun e => decide (e.node_id = nid))

/-- The event `on_message` emits for `jsonPosMsg` under `okEnv`. -/
def jsonPosEvent : Event :=
  { timestamp := 5
    timestamp_iso := "2026-01-01 00:00:00"
    node_id := .str "!abcdef01"
    hex_id := "8841ad91dbfffff"
    latitude := .num 51
    longitude := .num (-7)
    altitude := .none
    packet_type := .str "unknown"
    rssi := .none
    snr := .none
    hop_limit := .none
    topic := "msh/US/2/json/LongFast/!abc"
    raw_payload := "7b7d" }

/-- A later event for the same node as `jsonPosEvent`, at a new position. -/
def jsonPosEvent2 : Event :=
  { jsonPosEvent with
    timestamp := 9
    hex_id := "8841ad91dbaaaaa"
    latitude := .num 52
    longitude := .num (-6) }

/-!
## Dict lemmas
-/

theorem PyDict.hasKey_append : ∀ (a b : PyDict) (k : String),
    (a.append b).hasKey k = (a.hasKey k || b.hasKey k)
  | .nil, b, k => by simp [PyDict.append, PyDict.hasKey]
  | .cons k' v r, b, k => by
    by_cases h : k' == k <;>
      simp [PyDict.append, PyDict.hasKey, h, PyDict.hasKey_append r b k]

theorem PyDict.dget_append_left : ∀ {a : PyDict} (b : PyDict) {k : String},
    a.hasKey k = true → (a.append b).dget k = a.dget k
  | .nil, _, k, h => by simp [PyDict.hasKey] at h
  | .cons k' v r, b, k, h => by
    simp only [PyDict.hasKey, Bool.or_eq_true, beq_iff_eq] at h
    by_cases hk : k' = k
    · simp [PyDict.append, PyDict.dget, hk]
    · have hr := h.resolve_left hk
      simp [PyDict.append, PyDict.dget, hk, PyDict.dget_append_left b hr]

theorem PyDict.dget_append_right : ∀ {a : PyDict} (b : PyDict) {k : String},
    a.hasKey k = false → (a.append b).dget k = b.dget k
  | .nil, b, k, _ => by simp [PyDict.append]
  | .cons k' v r, b, k, h => by
    simp only [PyDict.hasKey, Bool.or_eq_false_iff, beq_eq_false_iff_ne, ne_eq] at h
    simp [PyDict.append, PyDict.dget, h.1, PyDict.dget_append_right b h.2]

theorem PyDict.dget_of_hasKey_eq_false : ∀ {d : PyDict} {k : String},
    d.hasKey k = false → d.dget k = PyVal.none
  | .nil, _, _ => rfl
  | .cons k' v r, k, h => by
    simp only [PyDict.hasKey, Bool.or_eq_false_iff, beq_eq_false_iff_ne, ne_eq] at h
    simp [PyDict.dget, h.1, PyDict.dget_of_hasKey_eq_false h.2]

/-!
## C6 — canonical node-id formatting
-/

theorem digitChar_mem_lowerHex {d : Nat} (hd : d < 16) :
    Nat.digitChar d ∈ lowerHexChars := by
  interval_cases d <;> decide

theorem hexDigitsOf_len_le {n : Nat} (hn : n < 2 ^ 32) :
    (hexDigitsOf n).length ≤ 8 := by
  rcases Nat.eq_zero_or_pos n with h0 | hpos
  · subst h0; simp [hexDigitsOf]
  · have hlen : (Nat.digits 16 n).length = Nat.log 16 n + 1 :=
      Nat.digits_len 16 n (by norm_num) hpos.ne'
    have hlog : Nat.log 16 n < 8 := by
      have h16 : n < 16 ^ 8 := by norm_num at hn ⊢; omega
      exact Nat.log_lt_of_lt_pow hpos.ne' h16
    simp [hexDigitsOf, hlen]
    omega

theorem hexDigitsOf_mem_lowerHex {n : Nat} {c : Char}
    (hc : c ∈ hexDigitsOf n) : c ∈ lowerHexChars := by
  simp only [hexDigitsOf, List.mem_map, List.mem_reverse] at hc
  obtain ⟨d, hd, rfl⟩ := hc
  exact digitChar_mem_lowerHex (Nat.digits_lt_base (by norm_num) hd)

/-- C6 (amended): for every NON-ZERO 32-bit node integer, `format_node_id`
produces a 9-character string: `'!'` followed by exactly 8 lowercase
hexadecimal digit characters (zero-padded). -/
theorem format_node_id_canonical (n : Nat) (hpos : 0 < n) (h32 : n < 2 ^ 32) :
    ∃ s : String, format_node_id n = some s ∧
      s.length = 9 ∧
      s.data.head? = some '!' ∧
      (s.data.tail).length = 8 ∧
      ∀ c ∈ s.data.tail, c ∈ lowerHexChars := by
  have hne : n ≠ 0 := hpos.ne'
  have hlen := hexDigitsOf_len_le h32
  refine ⟨String.mk ('!' :: (List.replicate (8 - (hexDigitsOf n).length) '0' ++
      hexDigitsOf n)), ?_, ?_, ?_, ?_, ?_⟩
  · simp [format_node_id, hne]
  · show ('!' :: (List.replicate (8 - (hexDigitsOf n).length) '0' ++ hexDigitsOf n)).length = 9
    simp
    omega
  · rfl
  · show ((List.replicate (8 - (hexDigitsOf n).length) '0' ++ hexDigitsOf n)).length = 8
    simp
    omega
  · intro c hc
    simp only [List.tail_cons, List.mem_append, List.mem_replicate] at hc
    rcases hc with ⟨_, rfl⟩ | hc
    · decide
    · exact hexDigitsOf_mem_lowerHex hc

/-- C6 witness: the amended statement at the concrete node integer 1,
whose canonical form is `"!00000001"`. -/
theorem format_node_id_canonical_witness :
    ∃ s : String, format_node_id 1 = some s ∧
      s.length = 9 ∧
      s.data.head? = some '!' ∧
      (s.data.tail).length = 8 ∧
      ∀ c ∈ s.data.tail, c ∈ lowerHexChars :=
  format_node_id_canonical 1 (by norm_num) (by norm_num)

/-- C6 counterexample: 0 is a 32-bit node integer, but `format_node_id 0`
is `None`, not a 9-character canonical string — the claim as stated
("for every 32-bit node integer") fails at 0. -/
theorem format_node_id_zero_counterexample :
    format_node_id 0 = Option.none ∧
      ¬ ∃ s : String, format_node_id 0 = some s ∧ s.length = 9 := by
  constructor
  · rfl
  · rintro ⟨s, hs, -⟩
    simp [format_node_id] at hs

/-!
## `on_message` helper lemmas
-/

theorem on_message_rawLine (w : WorkerEnv) (tsu : Nat) (ts : String) (m : InMsg) :
    (on_message w tsu ts m).rawLine = (m.topic, m.payload_hex) := by
  simp only [on_message]
  repeat' split
  all_goals rfl

theorem on_message_no_dbPool (w : WorkerEnv) (tsu : Nat) (ts : String) (m : InMsg)
    (h : w.dbPool = false) :
    (on_message w tsu ts m).dbDispatched = Option.none := by
  simp only [on_message]
  repeat' split
  all_goals simp_all

theorem on_message_dbPool_irrelevant (h3 : PyVal → PyVal → Nat → Except String String)
    (hx b b' : Bool) (tsu : Nat) (ts : String) (m : InMsg) :
    (on_message ⟨h3, hx, b⟩ tsu ts m).rawLine =
      (on_message ⟨h3, hx, b'⟩ tsu ts m).rawLine ∧
    (on_message ⟨h3, hx, b⟩ tsu ts m).decodedLine =
      (on_message ⟨h3, hx, b'⟩ tsu ts m).decodedLine ∧
    (on_message ⟨h3, hx, b⟩ tsu ts m).hexEventLine =
      (on_message ⟨h3, hx, b'⟩ tsu ts m).hexEventLine := by
  simp only [on_message]
  repeat' split
  all_goals simp

/-- Shared effect lemma: a binary-path message whose node-identity
resolution fails is raw-logged, writes the error marker to the decoded
log, and emits no event on either output path. -/
theorem on_message_missing_node_id (w : WorkerEnv) (tsu : Nat) (ts : String)
    (m : InMsg) (env : ServiceEnvelope)
    (hjson : strContains m.topic "/json/" = false)
    (hbin : (strContains m.topic "/e/" || strContains m.topic "/c/") = true)
    (henv : m.binParse = .ok env)
    (hres : resolve_node_id env = Option.none) :
    (on_message w tsu ts m).rawLine = (m.topic, m.payload_hex) ∧
    (on_message w tsu ts m).decodedLine =
      some (PyDict.ofList [("error", PyVal.str "from_node")]) ∧
    (on_message w tsu ts m).hexEventLine = Option.none ∧
    (on_message w tsu ts m).dbDispatched = Option.none := by
  have hdec : decode_protobuf_packet m.binParse =
      PyDict.ofList [("error", PyVal.str "from_node")] := by
    rw [henv]
    simp only [decode_protobuf_packet, hres]
  refine ⟨on_message_rawLine w tsu ts m, ?_⟩
  simp only [on_message, hjson, hbin, hdec]
  simp [PyDict.ofList, PyDict.dget]

theorem truthy_ne_none_and_zero {v : PyVal} (h : v.truthy = true) :
    v ≠ PyVal.none ∧ v ≠ PyVal.num 0 := by
  constructor <;> rintro rfl <;> simp [PyVal.truthy] at h

/-!
## C1 — node-identity resolution
-/

theorem pyStartsWith_bang_ne_empty {s : String} (h : pyStartsWith s "!" = true) :
    s ≠ "" := by
  intro he
  subst he
  simp [pyStartsWith] at h

theorem resolve_node_id_eq_spec (env : ServiceEnvelope) :
    resolve_node_id env = node_id_spec env := by
  unfold resolve_node_id node_id_spec
  by_cases hfrom : env.getPacket.from_node ≠ 0
  · simp [hfrom]
  · simp only [hfrom, if_false]
    have hlen : (3 ≤ (env.listFields).length) ↔ (env.listFields)[2]?.isSome = true := by
      rw [Option.isSome_iff_exists]
      constructor
      · intro h; exact ⟨(env.listFields)[2], List.getElem?_eq_getElem (by omega)⟩
      · rintro ⟨a, ha⟩
        have := (List.getElem?_eq_some.mp ha).1
        omega
    by_cases h3 : 3 ≤ (env.listFields).length
    · simp only [h3, if_true]
      obtain ⟨⟨nm, fv⟩, hget⟩ := Option.isSome_iff_exists.mp (hlen.mp h3)
      rw [hget]
      cases fv with
      | msg p => rfl
      | str g =>
        by_cases hst : pyStartsWith g "!" = true
        · simp [hst, pyStartsWith_bang_ne_empty hst]
        · simp [hst]
    · have : (env.listFields)[2]? = Option.none := by
        rw [List.getElem?_eq_none_iff]
        omega
      simp [h3, this]

/-- C1: for every successfully parsed binary envelope, the decoded packet's
node identity is exactly `node_id_spec`: when the algorithm yields an id,
the decoded dict's `"from"` field carries it and no error is reported;
when it yields none, the decode fails with the `MissingNodeId` error marker
`{"error": "from_node"}` and the packet is dropped from the event path
(no event is logged or dispatched for it). -/
theorem node_identity_resolution (env : ServiceEnvelope) :
    (∀ nid, node_id_spec env = some nid →
      (decode_protobuf_packet (.ok env)).dget "from" = PyVal.str nid ∧
      (decode_protobuf_packet (.ok env)).hasKey "error" = false) ∧
    (node_id_spec env = Option.none →
      decode_protobuf_packet (.ok env) =
        PyDict.ofList [("error", PyVal.str "from_node")]) ∧
    (node_id_spec env = Option.none →
      ∀ (w : WorkerEnv) (tsu : Nat) (ts : String) (m : InMsg),
        m.binParse = .ok env →
        strContains m.topic "/json/" = false →
        (strContains m.topic "/e/" || strContains m.topic "/c/") = true →
        (on_message w tsu ts m).hexEventLine = Option.none ∧
        (on_message w tsu ts m).dbDispatched = Option.none) := by
  refine ⟨?_, ?_, ?_⟩
  · intro nid hnid
    rw [← resolve_node_id_eq_spec] at hnid
    simp only [decode_protobuf_packet, hnid]
    have hbase_from : (decodedBase env.getPacket nid).dget "from" = PyVal.str nid := by
      simp [decodedBase, PyDict.ofList, PyDict.dget]
    have hbase_err : (decodedBase env.getPacket nid).hasKey "error" = false := by
      simp [decodedBase, PyDict.ofList, PyDict.hasKey]
    have hbase_from_key : (decodedBase env.getPacket nid).hasKey "from" = true := by
      simp [decodedBase, PyDict.ofList, PyDict.hasKey]
    have hpay_err : ∀ d : DataMsg, (decodedPayloadFields d).hasKey "error" = false := by
      intro d
      unfold decodedPayloadFields
      repeat' split
      all_goals simp_all [PyDict.ofList, PyDict.hasKey, PyDict.hasKey_append, PyDict.append]
    cases hdec : env.getPacket.decoded with
    | none => exact ⟨hbase_from, hbase_err⟩
    | some d =>
      constructor
      · rw [PyDict.dget_append_left _ (by
          simp [PyDict.hasKey_append, hbase_from_key])]
        exact PyDict.dget_append_left _ hbase_from_key
      · simp [PyDict.hasKey_append, hbase_err, hpay_err d, PyDict.ofList, PyDict.hasKey]
  · intro hnone
    rw [← resolve_node_id_eq_spec] at hnone
    simp only [decode_protobuf_packet, hnone]
  · intro hnone w tsu ts m henv hj hb
    have hres : resolve_node_id env = Option.none := by
      rw [resolve_node_id_eq_spec]; exact hnone
    have h := on_message_missing_node_id w tsu ts m env hj hb henv hres
    exact ⟨h.2.2.1, h.2.2.2⟩

/-- C1 witness, covering spec sentence "a binary message with a zero `from`
field but a valid gateway-id field resolves node identity from the gateway
id": an envelope with all three fields populated, `from = 0`, gateway id
`"!2af67b10"`. -/
theorem node_identity_resolution_witness :
    (node_id_spec ⟨some { defaultMeshPacket with id := 7 }, "LongFast", "!2af67b10"⟩ =
        some "!2af67b10") ∧
    (decode_protobuf_packet (.ok ⟨some { defaultMeshPacket with id := 7 },
        "LongFast", "!2af67b10"⟩)).dget "from" = PyVal.str "!2af67b10" ∧
    (decode_protobuf_packet (.ok ⟨some { defaultMeshPacket with id := 7 },
        "LongFast", "!2af67b10"⟩)).hasKey "error" = false ∧
    (on_message okEnv 11 "ts" noIdMsg).hexEventLine = Option.none ∧
    (on_message okEnv 11 "ts" noIdMsg).dbDispatched = Option.none := by
  have hspec : node_id_spec ⟨some { defaultMeshPacket with id := 7 },
      "LongFast", "!2af67b10"⟩ = some "!2af67b10" := by decide
  have h := (node_identity_resolution ⟨some { defaultMeshPacket with id := 7 },
      "LongFast", "!2af67b10"⟩).1 "!2af67b10" hspec
  have h2 := (node_identity_resolution ⟨Option.none, "", ""⟩).2.2 (by decide)
    okEnv 11 "ts" noIdMsg rfl (by decide) (by decide)
  exact ⟨hspec, h.1, h.2, h2.1, h2.2⟩

/-!
## C2 — events require a usable position
-/

/-- C2: an event reaches the hex-events log or the relational dispatch only
when the decoded packet carries a `position` dict whose latitude and
longitude are both truthy — in particular both non-`None` and non-zero, so
a `(0, 0)` position never produces an event; every message is raw-logged
regardless. -/
theorem event_only_with_position (w : WorkerEnv) (tsu : Nat) (ts : String)
    (m : InMsg) (ev : Event)
    (h : (on_message w tsu ts m).hexEventLine = some ev ∨
         (on_message w tsu ts m).dbDispatched = some ev) :
    (on_message w tsu ts m).rawLine = (m.topic, m.payload_hex) ∧
    ∃ dec p, (on_message w tsu ts m).decodedLine = some dec ∧
      dec.dget "position" = PyVal.dict p ∧
      (p.dget "latitude").truthy = true ∧
      (p.dget "longitude").truthy = true ∧
      p.dget "latitude" ≠ PyVal.none ∧ p.dget "latitude" ≠ PyVal.num 0 ∧
      p.dget "longitude" ≠ PyVal.none ∧ p.dget "longitude" ≠ PyVal.num 0 ∧
      ev.latitude = p.dget "latitude" ∧ ev.longitude = p.dget "longitude" := by
  refine ⟨on_message_rawLine w tsu ts m, ?_⟩
  revert h
  simp only [on_message]
  repeat' split
  all_goals intro h
  all_goals try (rcases h with h | h <;> exact Option.noConfusion h)
  all_goals rename_i hdict htruthy _ _ _ _ _
  all_goals rw [Bool.and_eq_true] at htruthy
  all_goals obtain ⟨hlat1, hlat2⟩ := truthy_ne_none_and_zero htruthy.1
  all_goals obtain ⟨hlon1, hlon2⟩ := truthy_ne_none_and_zero htruthy.2
  all_goals refine ⟨_, _, rfl, hdict, htruthy.1, htruthy.2,
    hlat1, hlat2, hlon1, hlon2, ?_, ?_⟩
  all_goals rcases h with h | h
  all_goals try exact Option.noConfusion h
  all_goals injection h with h
  all_goals rw [← h]

/-- C2 witness: the JSON message `jsonPosMsg` (position (51, -7))
produces the event `jsonPosEvent`, and the theorem's conclusion holds
for it. -/
theorem event_only_with_position_witness :
    (on_message okEnv 5 "2026-01-01 00:00:00" jsonPosMsg).rawLine =
      (jsonPosMsg.topic, jsonPosMsg.payload_hex) ∧
    ∃ dec p, (on_message okEnv 5 "2026-01-01 00:00:00" jsonPosMsg).decodedLine = some dec ∧
      dec.dget "position" = PyVal.dict p ∧
      (p.dget "latitude").truthy = true ∧
      (p.dget "longitude").truthy = true ∧
      p.dget "latitude" ≠ PyVal.none ∧ p.dget "latitude" ≠ PyVal.num 0 ∧
      p.dget "longitude" ≠ PyVal.none ∧ p.dget "longitude" ≠ PyVal.num 0 ∧
      jsonPosEvent.latitude = p.dget "latitude" ∧
      jsonPosEvent.longitude = p.dget "longitude" :=
  event_only_with_position okEnv 5 "2026-01-01 00:00:00" jsonPosMsg jsonPosEvent
    (Or.inl (by decide))

/-!
## C5 — MissingNodeId drop (corrected: a decoded-log line IS written)
-/

/-- C5 counterexample: for a binary message whose node-identity resolution
fails, `decoded` is the truthy dict `{"error": "from_node"}`, so a line IS
appended to the decoded log — refuting "contributes no line to the decoded
log".  Zero events are emitted and the raw log still receives the message. -/
theorem missing_node_id_decoded_line_counterexample :
    (on_message okEnv 5 "2026-01-01 00:00:00" noIdMsg).decodedLine =
      some (PyDict.ofList [("error", PyVal.str "from_node")]) ∧
    (on_message okEnv 5 "2026-01-01 00:00:00" noIdMsg).hexEventLine = Option.none ∧
    (on_message okEnv 5 "2026-01-01 00:00:00" noIdMsg).dbDispatched = Option.none ∧
    (on_message okEnv 5 "2026-01-01 00:00:00" noIdMsg).rawLine =
      (noIdMsg.topic, noIdMsg.payload_hex) := by decide

/-- C5 (amended): a binary message whose node-identity resolution fails is
dropped from the event path — zero events are emitted — and is raw-logged;
however it also contributes one line to the decoded log, recording the
`{"error": "from_node"}` marker. -/
theorem missing_node_id_drop (w : WorkerEnv) (tsu : Nat) (ts : String)
    (m : InMsg) (env : ServiceEnvelope)
    (hjson : strContains m.topic "/json/" = false)
    (hbin : (strContains m.topic "/e/" || strContains m.topic "/c/") = true)
    (henv : m.binParse = .ok env)
    (hres : resolve_node_id env = Option.none) :
    (on_message w tsu ts m).rawLine = (m.topic, m.payload_hex) ∧
    (on_message w tsu ts m).decodedLine =
      some (PyDict.ofList [("error", PyVal.str "from_node")]) ∧
    (on_message w tsu ts m).hexEventLine = Option.none ∧
    (on_message w tsu ts m).dbDispatched = Option.none :=
  on_message_missing_node_id w tsu ts m env hjson hbin henv hres

/-- C5 witness for the amended statement, at the concrete message
`noIdMsg`. -/
theorem missing_node_id_drop_witness :
    (on_message hexFailEnv 7 "ts" noIdMsg).rawLine =
      (noIdMsg.topic, noIdMsg.payload_hex) ∧
    (on_message hexFailEnv 7 "ts" noIdMsg).decodedLine =
      some (PyDict.ofList [("error", PyVal.str "from_node")]) ∧
    (on_message hexFailEnv 7 "ts" noIdMsg).hexEventLine = Option.none ∧
    (on_message hexFailEnv 7 "ts" noIdMsg).dbDispatched = Option.none :=
  missing_node_id_drop hexFailEnv 7 "ts" noIdMsg ⟨Option.none, "", ""⟩
    (by decide) (by decide) rfl (by decide)

/-!
## C4 — write-path independence (corrected: one direction only)
-/

/-- C4 counterexample: with the store pool up but the hex-events append
failing, the same message that is dispatched to the store under `okEnv`
produces NO relational dispatch — the append-log failure prevents the
relational write from being attempted, refuting "a failure in one write
path does not prevent the other from being attempted". -/
theorem log_failure_blocks_db_counterexample :
    (on_message hexFailEnv 5 "2026-01-01 00:00:00" jsonPosMsg).hexEventLine =
      Option.none ∧
    (on_message hexFailEnv 5 "2026-01-01 00:00:00" jsonPosMsg).dbDispatched =
      Option.none ∧
    (on_message okEnv 5 "2026-01-01 00:00:00" jsonPosMsg).dbDispatched =
      some jsonPosEvent := by decide

/-- C4 (amended): a failure of the relational path is caught inside
`save_event_to_db` (which always returns, logging the error and attempting
the failed write exactly once, never retrying), and the relational path
cannot affect the log-side outputs of the dispatch (they are identical
whatever the pool state); but the independence is one-directional — a
failing hex-events append aborts the dispatch before the relational write
is attempted (see the counterexample). -/
theorem relational_failure_contained (st : DbState) (ev : Event) :
    save_event_to_db st ev .failAcquireOrInsert = (st, true) ∧
    save_event_to_db st ev .failUpsert =
      ({ events := st.events ++ [ev], devices := st.devices }, true) ∧
    (save_event_to_db st ev .ok).1.events = st.events ++ [ev] ∧
    (∀ (h3 : PyVal → PyVal → Nat → Except String String) (hx b b' : Bool)
       (tsu : Nat) (ts : String) (m : InMsg),
      (on_message ⟨h3, hx, b⟩ tsu ts m).rawLine =
        (on_message ⟨h3, hx, b'⟩ tsu ts m).rawLine ∧
      (on_message ⟨h3, hx, b⟩ tsu ts m).decodedLine =
        (on_message ⟨h3, hx, b'⟩ tsu ts m).decodedLine ∧
      (on_message ⟨h3, hx, b⟩ tsu ts m).hexEventLine =
        (on_message ⟨h3, hx, b'⟩ tsu ts m).hexEventLine) :=
  ⟨rfl, rfl, rfl, fun h3 hx b b' tsu ts m =>
    on_message_dbPool_irrelevant h3 hx b b' tsu ts m⟩

/-!
## C3 — device-aggregate upsert invariants
-/

theorem foldl_update_packet_count (l : List Event) (r : DeviceRow) :
    (l.foldl updateDeviceRow r).packet_count = r.packet_count + l.length := by
  induction l generalizing r with
  | nil => simp
  | cons e tl ih => simp [List.foldl_cons, ih, updateDeviceRow]; omega

theorem foldl_update_first_seen (l : List Event) (r : DeviceRow) :
    (l.foldl updateDeviceRow r).first_seen = r.first_seen := by
  induction l generalizing r with
  | nil => rfl
  | cons e tl ih => simp [List.foldl_cons, ih, updateDeviceRow]

theorem foldl_update_last (l : List Event) (r : DeviceRow) :
    (l.foldl updateDeviceRow r) =
      match l.getLast? with
      | Option.none => r
      | some eL => { r with
          last_seen := eL.timestamp
          last_hex_id := eL.hex_id
          last_latitude := eL.latitude
          last_longitude := eL.longitude
          last_altitude := eL.altitude
          packet_count := (l.foldl updateDeviceRow r).packet_count } := by
  induction l using List.reverseRecOn with
  | nil => rfl
  | append_singleton tl e ih =>
    rw [List.foldl_append]
    simp only [List.getLast?_concat, List.foldl_cons, List.foldl_nil]
    rw [ih]
    cases htl : tl.getLast? <;> simp [updateDeviceRow]

theorem apply_events_char (evs : List Event) (nid : PyVal) :
    apply_events evs nid =
      match events_for nid evs with
      | [] => Option.none
      | e0 :: rest => some (rest.foldl updateDeviceRow (newDeviceRow e0)) := by
  induction evs using List.reverseRecOn with
  | nil => rfl
  | append_singleton tl e ih =>
    rw [apply_events] at ih ⊢
    rw [List.foldl_append]
    simp only [List.foldl_cons, List.foldl_nil]
    simp only [events_for, List.filter_append, List.filter_cons, List.filter_nil,
      decide_eq_true_eq] at ih ⊢
    by_cases hn : nid = e.node_id
    · subst hn
      rw [upsert_device, if_pos rfl, ih, if_pos rfl]
      cases hf : List.filter (fun ev => decide (ev.node_id = e.node_id)) tl with
      | nil => simp [hf]
      | cons e0 rest => simp [hf, List.foldl_append]
    · rw [upsert_device, if_neg hn, ih,
        if_neg (fun h : e.node_id = nid => hn h.symm), List.append_nil]

/-- C3: after any sequence of persisted events, a device row exists for
`nid` exactly when some event was attributed to it, and then:
`packet_count` equals the number of events attributed to `nid` (one
increment per event), `first_seen` is the first such event's timestamp
(set at row creation, never overwritten), and the `last_*` columns carry
the values of the newest such event (last-write-wins). -/
theorem device_aggregate_upsert (evs : List Event) (nid : PyVal) (r : DeviceRow)
    (h : apply_events evs nid = some r) :
    r.packet_count = (events_for nid evs).length ∧
    (∃ e0, (events_for nid evs).head? = some e0 ∧ r.first_seen = e0.timestamp) ∧
    (∃ eL, (events_for nid evs).getLast? = some eL ∧
      r.last_seen = eL.timestamp ∧ r.last_hex_id = eL.hex_id ∧
      r.last_latitude = eL.latitude ∧ r.last_longitude = eL.longitude ∧
      r.last_altitude = eL.altitude) := by
  rw [apply_events_char] at h
  cases hf : events_for nid evs with
  | nil => rw [hf] at h; cases h
  | cons e0 rest =>
    rw [hf] at h
    injection h with h
    subst h
    refine ⟨?_, ⟨e0, rfl, ?_⟩, ?_⟩
    · rw [foldl_update_packet_count]
      simp [newDeviceRow]
      omega
    · rw [foldl_update_first_seen]; rfl
    · rw [foldl_update_last]
      cases hr : rest.getLast? with
      | none =>
        have : rest = [] := List.getLast?_eq_none_iff.mp hr
        subst this
        exact ⟨e0, rfl, rfl, rfl, rfl, rfl, rfl⟩
      | some eL =>
        refine ⟨eL, ?_, rfl, rfl, rfl, rfl, rfl⟩
        cases rest with
        | nil => cases hr
        | cons c tl => rw [List.getLast?_cons_cons]; exact hr

/-- C3 witness: two events for node `!abcdef01`; the resulting row has
`packet_count = 2`, `first_seen` from the first event and `last_*` from
the second. -/
theorem device_aggregate_upsert_witness :
    (updateDeviceRow (newDeviceRow jsonPosEvent) jsonPosEvent2).packet_count =
      (events_for (.str "!abcdef01") [jsonPosEvent, jsonPosEvent2]).length ∧
    (∃ e0, (events_for (.str "!abcdef01") [jsonPosEvent, jsonPosEvent2]).head? = some e0 ∧
      (updateDeviceRow (newDeviceRow jsonPosEvent) jsonPosEvent2).first_seen = e0.timestamp) ∧
    (∃ eL, (events_for (.str "!abcdef01") [jsonPosEvent, jsonPosEvent2]).getLast? = some eL ∧
      (updateDeviceRow (newDeviceRow jsonPosEvent) jsonPosEvent2).last_seen = eL.timestamp ∧
      (updateDeviceRow (newDeviceRow jsonPosEvent) jsonPosEvent2).last_hex_id = eL.hex_id ∧
      (updateDeviceRow (newDeviceRow jsonPosEvent) jsonPosEvent2).last_latitude = eL.latitude ∧
      (updateDeviceRow (newDeviceRow jsonPosEvent) jsonPosEvent2).last_longitude = eL.longitude ∧
      (updateDeviceRow (newDeviceRow jsonPosEvent) jsonPosEvent2).last_altitude = eL.altitude) :=
  device_aggregate_upsert [jsonPosEvent, jsonPosEvent2] (.str "!abcdef01")
    (updateDeviceRow (newDeviceRow jsonPosEvent) jsonPosEvent2) (by decide)

/-!
## C7 — degraded mode after exhausted store retries
-/

/-- C7: when all five store-connection attempts fail, `init_db` makes
exactly `max_retries = 5` attempts with a `retry_delay = 3` second sleep
between consecutive attempts, leaves `db_pool` unset, and the process
continues: every subsequent dispatch behaves on the log side exactly as
with a live pool (raw line always written, decoded and hex-event lines
unchanged) while no relational write is ever dispatched. -/
theorem degraded_mode (outcome : Nat → Bool)
    (hfail : ∀ i, i < max_retries → outcome i = false) :
    (init_db outcome).db_pool = false ∧
    (init_db outcome).attempts = max_retries ∧
    (init_db outcome).sleeps = List.replicate (max_retries - 1) retry_delay ∧
    ∀ (h3 : PyVal → PyVal → Nat → Except String String) (hx : Bool)
      (tsu : Nat) (ts : String) (m : InMsg),
      (on_message ⟨h3, hx, (init_db outcome).db_pool⟩ tsu ts m).dbDispatched =
        Option.none ∧
      (on_message ⟨h3, hx, (init_db outcome).db_pool⟩ tsu ts m).rawLine =
        (m.topic, m.payload_hex) ∧
      (on_message ⟨h3, hx, (init_db outcome).db_pool⟩ tsu ts m).decodedLine =
        (on_message ⟨h3, hx, true⟩ tsu ts m).decodedLine ∧
      (on_message ⟨h3, hx, (init_db outcome).db_pool⟩ tsu ts m).hexEventLine =
        (on_message ⟨h3, hx, true⟩ tsu ts m).hexEventLine := by
  have h0 := hfail 0 (by norm_num [max_retries])
  have h1 := hfail 1 (by norm_num [max_retries])
  have h2 := hfail 2 (by norm_num [max_retries])
  have h3 := hfail 3 (by norm_num [max_retries])
  have h4 := hfail 4 (by norm_num [max_retries])
  have hinit : init_db outcome =
      ⟨false, max_retries, List.replicate (max_retries - 1) retry_delay⟩ := by
    rw [init_db]
    rw [init_db_loop]; simp only [h0, max_retries]; norm_num
    rw [init_db_loop]; simp only [h1, max_retries]; norm_num
    rw [init_db_loop]; simp only [h2, max_retries]; norm_num
    rw [init_db_loop]; simp only [h3, max_retries]; norm_num
    rw [init_db_loop]; simp only [h4, max_retries]; norm_num
    simp [retry_delay, List.replicate]
  rw [hinit]
  refine ⟨rfl, rfl, rfl, ?_⟩
  intro h3f hx tsu ts m
  exact ⟨on_message_no_dbPool ⟨h3f, hx, false⟩ tsu ts m rfl,
    on_message_rawLine ⟨h3f, hx, false⟩ tsu ts m,
    (on_message_dbPool_irrelevant h3f hx false true tsu ts m).2.1,
    (on_message_dbPool_irrelevant h3f hx false true tsu ts m).2.2⟩

/-- C7 witness: the always-failing outcome, with the degraded worker's
behaviour instantiated on the concrete message `jsonPosMsg`. -/
theorem degraded_mode_witness :
    (init_db (fun _ => false)).db_pool = false ∧
    (init_db (fun _ => false)).attempts = max_retries ∧
    (init_db (fun _ => false)).sleeps = List.replicate (max_retries - 1) retry_delay ∧
    (on_message ⟨okEnv.h3geo, true, (init_db (fun _ => false)).db_pool⟩
        5 "ts" jsonPosMsg).dbDispatched = Option.none ∧
    (on_message ⟨okEnv.h3geo, true, (init_db (fun _ => false)).db_pool⟩
        5 "ts" jsonPosMsg).hexEventLine =
      (on_message ⟨okEnv.h3geo, true, true⟩ 5 "ts" jsonPosMsg).hexEventLine := by
  have h := degraded_mode (fun _ => false) (fun i _ => rfl)
  exact ⟨h.1, h.2.1, h.2.2.1,
    (h.2.2.2 okEnv.h3geo true 5 "ts" jsonPosMsg).1,
    (h.2.2.2 okEnv.h3geo true 5 "ts" jsonPosMsg).2.2.2⟩

/-!
## C8 — nested parse failure is a field-level omission
-/

theorem PyDict.append_nil : ∀ (d : PyDict), d.append PyDict.nil = d
  | .nil => rfl
  | .cons k v r => by rw [PyDict.append, PyDict.append_nil r]

/-- C8: for a successfully parsed envelope with a resolved node identity,
a parse exception on the nested payload message selected by the port
number (Position, Telemetry, or Text) results exactly in the omission of
that one field: the decode still succeeds, returning the base fields plus
`port_num` with no `position`/`telemetry`/`text` key and no error. -/
theorem nested_parse_failure_is_omission (env : ServiceEnvelope) (nid : String)
    (hres : resolve_node_id env = some nid) (d : DataMsg)
    (hdec : env.getPacket.decoded = some d) (e : String)
    (hfail : (d.portnum = POSITION_APP ∧ d.posParse = .error e) ∨
             (d.portnum = TELEMETRY_APP ∧ d.telParse = .error e) ∨
             (d.portnum = TEXT_MESSAGE_APP ∧ d.textParse = .error e)) :
    decode_protobuf_packet (.ok env) =
      (decodedBase env.getPacket nid).append
        (PyDict.ofList [("port_num", PyVal.num d.portnum)]) ∧
    (decode_protobuf_packet (.ok env)).hasKey "error" = false ∧
    (decode_protobuf_packet (.ok env)).hasKey "position" = false ∧
    (decode_protobuf_packet (.ok env)).hasKey "telemetry" = false ∧
    (decode_protobuf_packet (.ok env)).hasKey "text" = false ∧
    (decode_protobuf_packet (.ok env)).dget "from" = PyVal.str nid := by
  have hpay : decodedPayloadFields d = PyDict.nil := by
    rcases hfail with ⟨hp, hf⟩ | ⟨hp, hf⟩ | ⟨hp, hf⟩ <;>
      simp [decodedPayloadFields, hp, hf, POSITION_APP, TELEMETRY_APP, TEXT_MESSAGE_APP]
  have hd : decode_protobuf_packet (.ok env) =
      (decodedBase env.getPacket nid).append
        (PyDict.ofList [("port_num", PyVal.num d.portnum)]) := by
    simp only [decode_protobuf_packet, hres, hdec, hpay, PyDict.append_nil]
  refine ⟨hd, ?_, ?_, ?_, ?_, ?_⟩
  all_goals rw [hd]
  · simp [PyDict.hasKey_append, decodedBase, PyDict.ofList, PyDict.hasKey]
  · simp [PyDict.hasKey_append, decodedBase, PyDict.ofList, PyDict.hasKey]
  · simp [PyDict.hasKey_append, decodedBase, PyDict.ofList, PyDict.hasKey]
  · simp [PyDict.hasKey_append, decodedBase, PyDict.ofList, PyDict.hasKey]
  · rw [PyDict.dget_append_left _ (by simp [decodedBase, PyDict.ofList, PyDict.hasKey])]
    simp [decodedBase, PyDict.ofList, PyDict.dget]

/-- C8 witness: a packet from gateway `!2af67b10` whose Position payload
fails to parse; the decode succeeds with only `port_num` added. -/
theorem nested_parse_failure_is_omission_witness :
    resolve_node_id ⟨some { defaultMeshPacket with
        decoded := some ⟨POSITION_APP, .error "truncated", .error "x", .error "x"⟩ },
        "LongFast", "!2af67b10"⟩ = some "!2af67b10" ∧
    (decode_protobuf_packet (.ok ⟨some { defaultMeshPacket with
        decoded := some ⟨POSITION_APP, .error "truncated", .error "x", .error "x"⟩ },
        "LongFast", "!2af67b10"⟩)).hasKey "error" = false ∧
    (decode_protobuf_packet (.ok ⟨some { defaultMeshPacket with
        decoded := some ⟨POSITION_APP, .error "truncated", .error "x", .error "x"⟩ },
        "LongFast", "!2af67b10"⟩)).hasKey "position" = false ∧
    (decode_protobuf_packet (.ok ⟨some { defaultMeshPacket with
        decoded := some ⟨POSITION_APP, .error "truncated", .error "x", .error "x"⟩ },
        "LongFast", "!2af67b10"⟩)).dget "from" = PyVal.str "!2af67b10" := by
  have h := nested_parse_failure_is_omission
    ⟨some { defaultMeshPacket with
        decoded := some ⟨POSITION_APP, .error "truncated", .error "x", .error "x"⟩ },
      "LongFast", "!2af67b10"⟩
    "!2af67b10" (by decide)
    ⟨POSITION_APP, .error "truncated", .error "x", .error "x"⟩ rfl "truncated"
    (Or.inl ⟨rfl, rfl⟩)
  exact ⟨by decide, h.2.1, h.2.2.1, h.2.2.2.2.2⟩

/-!
## C9 — decode failures recovered locally, no cross-message state
-/

/-- C9: both sub-decoders are total functions of their own input: a failed
outer parse surfaces as a returned dict carrying the `"error"` field (with
the parse failure message), never as a raised exception; and the output of
a dispatch depends only on its own message, so one malformed message cannot
affect the processing of any other position in the batch. -/
theorem decode_failures_recovered (eb ej : String) (w : WorkerEnv)
    (tsu : Nat) (ts : String) :
    decode_protobuf_packet (.error eb) =
      PyDict.ofList [("error", PyVal.str ("Error parsing message: " ++ eb))] ∧
    decode_json_packet (.error ej) = PyDict.ofList [("error", PyVal.str ej)] ∧
    ∀ (msgs1 msgs2 : List InMsg) (i : Nat), msgs1[i]? = msgs2[i]? →
      (process_messages w tsu ts msgs1)[i]? = (process_messages w tsu ts msgs2)[i]? := by
  refine ⟨rfl, rfl, ?_⟩
  intro msgs1 msgs2 i h
  simp only [process_messages, List.getElem?_map, h]

/-- C9 witness: concrete parse-failure messages, and isolation instantiated
at index 0 of a singleton batch. -/
theorem decode_failures_recovered_witness :
    decode_protobuf_packet (.error "bad wire") =
      PyDict.ofList [("error", PyVal.str ("Error parsing message: " ++ "bad wire"))] ∧
    decode_json_packet (.error "Expecting value") =
      PyDict.ofList [("error", PyVal.str "Expecting value")] ∧
    (process_messages okEnv 5 "ts" [jsonPosMsg])[0]? =
      (process_messages okEnv 5 "ts" [jsonPosMsg])[0]? := by
  have h := decode_failures_recovered "bad wire" "Expecting value" okEnv 5 "ts"
  exact ⟨h.1, h.2.1, h.2.2 [jsonPosMsg] [jsonPosMsg] 0 rfl⟩

/-!
## C10 — JSON-path events always have null rssi/snr
-/

theorem decode_json_no_rx_keys (input : Except String PyDict) :
    (decode_json_packet input).hasKey "rx_rssi" = false ∧
    (decode_json_packet input).hasKey "rx_snr" = false := by
  cases input with
  | error e => simp [decode_json_packet, PyDict.ofList, PyDict.hasKey]
  | ok data =>
    simp only [decode_json_packet]
    split <;>
      simp [PyDict.ofList, PyDict.hasKey, PyDict.hasKey_append, PyDict.append]

theorem decode_json_keeps_rssi_snr (data : PyDict) :
    (decode_json_packet (.ok data)).dget "rssi" = data.dget "rssi" ∧
    (decode_json_packet (.ok data)).dget "snr" = data.dget "snr" := by
  simp only [decode_json_packet]
  split <;> simp [PyDict.ofList, PyDict.dget, PyDict.append]

/-- C10: every event produced on the JSON path has `rssi = None` and
`snr = None`, even when the JSON object supplies `"rssi"`/`"snr"` values:
the event builder reads the keys `"rx_rssi"`/`"rx_snr"`, which the JSON
sub-decoder never sets (it stores the supplied values under `"rssi"` and
`"snr"`). -/
theorem json_event_rssi_snr_null (w : WorkerEnv) (tsu : Nat) (ts : String)
    (m : InMsg) (ev : Event)
    (hjson : strContains m.topic "/json/" = true)
    (h : (on_message w tsu ts m).hexEventLine = some ev ∨
         (on_message w tsu ts m).dbDispatched = some ev) :
    ev.rssi = PyVal.none ∧ ev.snr = PyVal.none ∧
    ∀ data, m.jsonParse = .ok data →
      (decode_json_packet m.jsonParse).dget "rssi" = data.dget "rssi" ∧
      (decode_json_packet m.jsonParse).dget "snr" = data.dget "snr" ∧
      (decode_json_packet m.jsonParse).hasKey "rx_rssi" = false ∧
      (decode_json_packet m.jsonParse).hasKey "rx_snr" = false := by
  have hkeys := decode_json_no_rx_keys m.jsonParse
  have hrx : (decode_json_packet m.jsonParse).dget "rx_rssi" = PyVal.none :=
    PyDict.dget_of_hasKey_eq_false hkeys.1
  have hsx : (decode_json_packet m.jsonParse).dget "rx_snr" = PyVal.none :=
    PyDict.dget_of_hasKey_eq_false hkeys.2
  refine ⟨?_, ?_, ?_⟩
  · revert h
    simp only [on_message, hjson, if_true]
    repeat' split
    all_goals intro h
    all_goals try (rcases h with h | h <;> exact Option.noConfusion h)
    all_goals rcases h with h | h
    all_goals try exact Option.noConfusion h
    all_goals injection h with h
    all_goals rw [← h]
    all_goals exact hrx
  · revert h
    simp only [on_message, hjson, if_true]
    repeat' split
    all_goals intro h
    all_goals try (rcases h with h | h <;> exact Option.noConfusion h)
    all_goals rcases h with h | h
    all_goals try exact Option.noConfusion h
    all_goals injection h with h
    all_goals rw [← h]
    all_goals exact hsx
  · intro data hdata
    rw [hdata]
    have hk := decode_json_no_rx_keys (.ok data)
    exact ⟨(decode_json_keeps_rssi_snr data).1, (decode_json_keeps_rssi_snr data).2,
      hk.1, hk.2⟩

/-- C10 witness: `jsonPosMsg` supplies `"rssi": -70` and `"snr": 6`, yet
the emitted event `jsonPosEvent` carries null rssi and snr. -/
theorem json_event_rssi_snr_null_witness :
    jsonPosEvent.rssi = PyVal.none ∧ jsonPosEvent.snr = PyVal.none ∧
    ∀ data, jsonPosMsg.jsonParse = .ok data →
      (decode_json_packet jsonPosMsg.jsonParse).dget "rssi" = data.dget "rssi" ∧
      (decode_json_packet jsonPosMsg.jsonParse).dget "snr" = data.dget "snr" ∧
      (decode_json_packet jsonPosMsg.jsonParse).hasKey "rx_rssi" = false ∧
      (decode_json_packet jsonPosMsg.jsonParse).hasKey "rx_snr" = false :=
  json_event_rssi_snr_null okEnv 5 "2026-01-01 00:00:00" jsonPosMsg jsonPosEvent
    (by decide) (Or.inl (by decide))

end MeshMapper
